import Mathlib

/-!
Verification development for the Dropbox share-link extractor
(yt_dlp/extractor/dropbox.py, class DropboxIE, method _real_extract).

The extractor is embedded shallowly: external collaborators (the HTTP
fetchers, the regex library helpers inherited from the generic extractor
base class, the HLS manifest resolver, the cookie jar) are modelled as
fields of an environment record, while the control flow of _real_extract
itself, the Python stdlib base64 decoder (binascii.a2b_base64 in
non-strict mode, as called by base64.b64decode) and the lossy UTF-8
decode (bytes.decode with errors="ignore") are translated concretely.
Observable effects (page downloads, auth POSTs, metadata requests,
cookie reads and writes) are recorded in an explicit trace.
-/

set_option autoImplicit false

/-! ## Plain string utilities -/

/-- Does the pattern occur as a leading block of the haystack? -/
def occursAt : List Char → List Char → Bool
  | [], _ => true
  | _ :: _, [] => false
  | p :: ps, h :: hs => p == h && occursAt ps hs

/-- Does the pattern occur contiguously anywhere in the haystack?
This is Python's substring test (the `in` operator on str). -/
def occursIn (pat : List Char) : List Char → Bool
  | [] => occursAt pat []
  | h :: hs => occursAt pat (h :: hs) || occursIn pat hs

/-- Python's `needle in hay` substring containment on strings. -/
def strContains (hay pat : String) : Bool := occursIn pat.data hay.data

/-! ## base64.b64decode (CPython binascii.a2b_base64, non-strict mode)

`base64.b64decode(s)` with the default `validate=False` calls
`binascii.a2b_base64(s, strict_mode=False)`: characters outside the
base64 alphabet are skipped; a pad character closes the value once at
least two data characters of the current quad are present and the pad
count completes the quad; a leftover partial quad at end of input is an
error (`binascii.Error`), with a distinguished message when exactly one
data character remains. -/

/-- The value of a base64 alphabet character, `none` for a non-alphabet
character (which non-strict decoding skips). -/
def b64Val (c : Char) : Option Nat :=
  let n := c.toNat
  if 65 ≤ n ∧ n ≤ 90 then some (n - 65)
  else if 97 ≤ n ∧ n ≤ 122 then some (n - 97 + 26)
  else if 48 ≤ n ∧ n ≤ 57 then some (n - 48 + 52)
  else if n = 43 then some 62
  else if n = 47 then some 63
  else none

/-- The main loop of binascii.a2b_base64 (non-strict): state is the
position inside the current quad, the pending bits, the count of pads
seen since the last data character, and the output accumulator
(reversed). -/
def a2bLoop : List Char → Nat → Nat → Nat → List Nat → Except String (List Nat)
  | [], quadPos, _, _, acc =>
    if quadPos = 0 then .ok acc.reverse
    else if quadPos = 1 then
      .error "Invalid base64-encoded string: number of data characters cannot be 1 more than a multiple of 4"
    else .error "Incorrect padding"
  | c :: rest, quadPos, leftchar, pads, acc =>
    if c = '=' then
      if 2 ≤ quadPos ∧ 4 ≤ quadPos + (pads + 1) then .ok acc.reverse
      else a2bLoop rest quadPos leftchar (pads + 1) acc
    else
      match b64Val c with
      | none => a2bLoop rest quadPos leftchar pads acc
      | some v =>
        match quadPos with
        | 0 => a2bLoop rest 1 v 0 acc
        | 1 => a2bLoop rest 2 (v % 16) 0 ((leftchar * 4 + v / 16) :: acc)
        | 2 => a2bLoop rest 3 (v % 4) 0 ((leftchar * 16 + v / 4) :: acc)
        | _ => a2bLoop rest 0 0 0 ((leftchar * 64 + v) :: acc)

/-- `base64.b64decode` on a Python str, producing bytes or raising
`binascii.Error`. -/
def pyB64Decode (s : String) : Except String (List Nat) :=
  a2bLoop s.data 0 0 0 []

/-! ## bytes.decode("utf-8", "ignore")

Lossy UTF-8 decoding: maximal valid sequences become code points,
invalid subparts are dropped (the maximal-subpart policy of CPython's
UTF-8 decoder combined with the "ignore" error handler), and a
truncated sequence at end of input is dropped. -/

/-- Is the byte a UTF-8 continuation byte (0x80..0xBF)? -/
def isCont (b : Nat) : Bool := 128 ≤ b && b ≤ 191

/-- Fuelled worker for lossy UTF-8 decoding. Each step consumes at
least one byte, so fuel equal to the byte count is always enough. -/
def utf8Go : Nat → List Nat → List Char
  | 0, _ => []
  | _, [] => []
  | fuel + 1, b :: rest =>
    if b ≤ 0x7F then Char.ofNat b :: utf8Go fuel rest
    else if b ≤ 0xC1 then utf8Go fuel rest
    else if b ≤ 0xDF then
      match rest with
      | [] => []
      | c1 :: rest1 =>
        if isCont c1 then Char.ofNat ((b - 0xC0) * 64 + (c1 - 0x80)) :: utf8Go fuel rest1
        else utf8Go fuel rest
    else if b ≤ 0xEF then
      let lo := if b = 0xE0 then 0xA0 else 0x80
      let hi := if b = 0xED then 0x9F else 0xBF
      match rest with
      | [] => []
      | c1 :: rest1 =>
        if lo ≤ c1 && c1 ≤ hi then
          match rest1 with
          | [] => []
          | c2 :: rest2 =>
            if isCont c2 then
              Char.ofNat ((b - 0xE0) * 4096 + (c1 - 0x80) * 64 + (c2 - 0x80)) :: utf8Go fuel rest2
            else utf8Go fuel rest1
        else utf8Go fuel rest
    else if b ≤ 0xF4 then
      let lo := if b = 0xF0 then 0x90 else 0x80
      let hi := if b = 0xF4 then 0x8F else 0xBF
      match rest with
      | [] => []
      | c1 :: rest1 =>
        if lo ≤ c1 && c1 ≤ hi then
          match rest1 with
          | [] => []
          | c2 :: rest2 =>
            if isCont c2 then
              match rest2 with
              | [] => []
              | c3 :: rest3 =>
                if isCont c3 then
                  Char.ofNat ((b - 0xF0) * 262144 + (c1 - 0x80) * 4096 + (c2 - 0x80) * 64 + (c3 - 0x80)) :: utf8Go fuel rest3
                else utf8Go fuel rest2
            else utf8Go fuel rest1
        else utf8Go fuel rest
    else utf8Go fuel rest

/-- Lossy UTF-8 decoding of a byte list, per `errors="ignore"`. -/
def utf8DecodeIgnore (bs : List Nat) : List Char := utf8Go bs.length bs

/-- Decidable equality for Except values, needed to evaluate decoder
results on concrete inputs. -/
instance {ε α : Type} [DecidableEq ε] [DecidableEq α] : DecidableEq (Except ε α)
  | .ok a, .ok b =>
    if h : a = b then .isTrue (by rw [h]) else .isFalse (by intro hc; cases hc; exact h rfl)
  | .ok _, .error _ => .isFalse (by intro hc; cases hc)
  | .error _, .ok _ => .isFalse (by intro hc; cases hc)
  | .error e, .error f =>
    if h : e = f then .isTrue (by rw [h]) else .isFalse (by intro hc; cases hc; exact h rfl)

/-! ## Data model -/

/-- A subtitle map, as produced by the external HLS resolver: language
tag paired with track data (modelled opaquely as a string). -/
abbrev Subs := List (String × String)

/-- One entry of the formats list of the result record. The fields are
the dictionary keys the extractor writes; fields it leaves unset are
`none`. -/
structure Format where
  url : String
  format_id : Option String := none
  format_note : Option String := none
  quality : Option Int := none
  width : Option Nat := none
  height : Option Nat := none
  fps : Option Nat := none
  vcodec : Option String := none
deriving Repr, DecidableEq

/-- One thumbnail record of the result. -/
structure Thumbnail where
  url : String
  width : Nat
  height : Nat
  preference : Int
deriving Repr, DecidableEq

/-- The metadata record returned by the get_file_content_metadata
endpoint (the keys the extractor reads, each tolerant of absence). -/
structure FileMetadata where
  resolution_width : Option Nat := none
  resolution_height : Option Nat := none
  frame_rate : Option Nat := none
  codec : Option String := none
  duration : Option Nat := none
  capture_date : Option String := none
deriving Repr, DecidableEq

/-- The all-absent metadata record, i.e. the Python empty dict that
additional_metadata is initialised to. -/
def emptyMeta : FileMetadata := {}

/-- The values the token-scanning loop has produced once it commits to
a decoded payload that yielded a transcode URL. -/
structure Committed where
  formats : List Format
  subtitles : Subs
  hasAnonymousDownload : Bool
  thumbnailUrl : Option String
  storyboardUrl : Option String
  videoInternalId : Option String
deriving Repr, DecidableEq

/-- The dictionary _real_extract returns. -/
structure InfoResult where
  id : String
  title : String
  formats : List Format
  subtitles : Subs
  thumbnails : List Thumbnail
  storyboard_url : Option String
  duration : Option Nat
  upload_date : Option String
deriving Repr, DecidableEq

/-- The ways the embedded extraction can raise: ExtractorError (with
its expected flag), RegexNotFoundError from a _search_regex call with
no default, binascii.Error from base64.b64decode, and the
AttributeError from taking .value on a missing cookie. -/
inductive ExtractErr where
  | extractorError (msg : String) (expected : Bool)
  | regexNotFound (name : String)
  | binasciiError (msg : String)
  | attributeError
deriving Repr, DecidableEq

/-- The observable effects of one extraction: counts of page
downloads, auth POSTs and metadata POSTs, plus every cookie-jar read
(URL the jar was obtained for, cookie name) and write. -/
structure Trace where
  pageFetches : Nat
  authPosts : Nat
  metaRequests : Nat
  cookieReads : List (String × String)
  cookieWrites : List (String × String × String)
deriving Repr, DecidableEq

/-- Pointwise accumulation of two traces. -/
def Trace.merge (a b : Trace) : Trace :=
  ⟨a.pageFetches + b.pageFetches, a.authPosts + b.authPosts,
   a.metaRequests + b.metaRequests, a.cookieReads ++ b.cookieReads,
   a.cookieWrites ++ b.cookieWrites⟩

/-- The environment of one _real_extract call: the inputs, the pages
the HTTP layer returns, the cookie jar, and the behaviour of the
external regex/HLS/date helpers the extractor calls (all of which live
outside this repository's source file). `page1` is the body returned
by the first page download, `page2` the body returned by the re-fetch
performed after the password gate is passed. -/
structure Env where
  url : String
  videoId : String
  videopassword : Option String
  page1 : String
  page2 : String
  ogTitle : String → Option String
  findallTokens : String → List String
  findContentId : String → Option String
  cookies : String → String → Option String
  authStatus : Option String
  findTranscodeUrl : String → Option String
  findThumbnailUrl : String → Option String
  findStoryboardUrl : String → Option String
  findVideoInternalId : String → Option String
  hls : String → List Format × Subs
  metaResponse : Option FileMetadata
  strdate : String → Option String

/-! ## Modelled repository helpers (yt_dlp.utils, outside src/) -/

/-- Set one key in an association list of query parameters,
overwriting every existing binding of the key and appending when the
key is absent. -/
def setParam (qs : List (String × String)) (k v : String) : List (String × String) :=
  if qs.any (fun p => p.1 = k) then qs.map (fun p => if p.1 = k then (k, v) else p)
  else qs ++ [(k, v)]

/-- Split a character list on a separator character; like Python's
str.split with a one-character separator. -/
def splitOnCh (sep : Char) : List Char → List (List Char)
  | [] => [[]]
  | c :: rest =>
    let r := splitOnCh sep rest
    if c = sep then [] :: r
    else
      match r with
      | [] => [[c]]
      | g :: gs => (c :: g) :: gs

/-- Join character-list groups with a separator sequence. -/
def joinWith (sep : List Char) : List (List Char) → List Char
  | [] => []
  | [g] => g
  | g :: gs => g ++ sep ++ joinWith sep gs

/-- Modelled from the spec: the repository helper update_url_query
(yt_dlp.utils, not under src/) returns the URL with the given query
parameters set or overwritten. -/
def update_url_query (url : String) (params : List (String × String)) : String :=
  let parts := splitOnCh '?' url.data
  let base := parts.headD []
  let qs := joinWith ['?'] parts.tail
  let pairs := if qs.isEmpty then ([] : List (String × String)) else
    (splitOnCh '&' qs).map fun kv =>
      match splitOnCh '=' kv with
      | [] => (("" : String), ("" : String))
      | k :: rest => ((⟨k⟩ : String), (⟨joinWith ['='] rest⟩ : String))
  let merged := params.foldl (fun acc p => setParam acc p.1 p.2) pairs
  ⟨base ++ ['?'] ++ joinWith ['&'] (merged.map fun p => p.1.data ++ ['='] ++ p.2.data)⟩

/-- The value of a hexadecimal digit character. -/
def hexVal (c : Char) : Option Nat :=
  let n := c.toNat
  if 48 ≤ n ∧ n ≤ 57 then some (n - 48)
  else if 65 ≤ n ∧ n ≤ 70 then some (n - 65 + 10)
  else if 97 ≤ n ∧ n ≤ 102 then some (n - 97 + 10)
  else none

/-- Modelled from the spec: percent-escape decoding of the URL's final
path segment (the repository helper compat_urllib_parse_unquote is not
under src/). -/
def pctUnquote : List Char → List Char
  | [] => []
  | '%' :: a :: b :: rest =>
    match hexVal a, hexVal b with
    | some x, some y => Char.ofNat (x * 16 + y) :: pctUnquote rest
    | _, _ => '%' :: pctUnquote (a :: b :: rest)
  | c :: rest => c :: pctUnquote rest

/-- Modelled from the spec: the repository helper url_basename (not
under src/) — the final path segment of the URL, with query and
fragment stripped. -/
def url_basename (url : String) : String :=
  let core := (splitOnCh '?' ((splitOnCh '#' url.data).headD [])).headD []
  ⟨((splitOnCh '/' core).filter (fun s => s ≠ [])).getLastD []⟩

/-- The root part of os.path.splitext: the name up to the last dot,
except that a basename consisting only of leading dots before that dot
keeps its full name. -/
def splitextRoot (s : String) : String :=
  let cs := s.data
  match cs.reverse.findIdx? (fun c => c == '.') with
  | none => s
  | some k =>
    let i := cs.length - 1 - k
    if (cs.take i).any (fun c => c != '.') then ⟨cs.take i⟩ else s

/-- The title _real_extract derives from the URL: percent-decode the
basename, then strip the extension. -/
def deriveTitle (url : String) : String :=
  splitextRoot ⟨pctUnquote (url_basename url).data⟩

/-! ## The extractor (DropboxIE._real_extract), stage by stage -/

/-- Python truthiness of an optional string (None and the empty string
are falsy). -/
def optTruthy : Option String → Bool
  | none => false
  | some s => s ≠ ""

/-- The password-gate test of lines 54-57: the og:title equals the
known gate title, or the page body contains the known prompt phrase. -/
def isGated (env : Env) (page : String) : Bool :=
  (env.ogTitle page == some "Dropbox - Password Required")
    || strContains page "Enter the password for this link"

/-- Line 95: base64.b64decode(encoded).decode("utf-8", "ignore").
The base64 stage can raise binascii.Error; the UTF-8 stage is lossy
and total. -/
def decodeToken (encoded : String) : Except ExtractErr String :=
  match pyB64Decode encoded with
  | .error msg => .error (.binasciiError msg)
  | .ok bytes => .ok ⟨utf8DecodeIgnore bytes⟩

/-- The marker whose presence in the decoded payload sets
has_anonymous_download (the literal regex of line 110). -/
def anonMarker : String := "anonymous:\tanonymous"

/-- Lines 106-128: the values extracted from the decoded payload the
loop commits to. -/
def mkCommitted (env : Env) (decoded turl : String) : Committed :=
  let fs := env.hls turl
  { formats := fs.1
    subtitles := fs.2
    hasAnonymousDownload := strContains decoded anonMarker
    thumbnailUrl := env.findThumbnailUrl decoded
    storyboardUrl := env.findStoryboardUrl decoded
    videoInternalId := env.findVideoInternalId decoded }

/-- Lines 89-130: the loop over the registration tokens. The argument
list is already reversed, exactly as the code iterates
reversed(re.findall(...)). Each token is base64-decoded (an error
aborts extraction); a token whose decoded text yields no transcode URL
is skipped; the first token that yields one is committed and the loop
stops. -/
def scanTokens (env : Env) : List String → Except ExtractErr (Option Committed)
  | [] => .ok none
  | encoded :: rest =>
    match decodeToken encoded with
    | .error e => .error e
    | .ok decoded =>
      match env.findTranscodeUrl decoded with
      | none => scanTokens env rest
      | some turl => .ok (some (mkCommitted env decoded turl))

/-- The fixed size table of lines 133-141. -/
def thumbSizes : List (String × Nat × Nat) :=
  [("480x320", 480, 320), ("640x480", 640, 480), ("800x600", 800, 600),
   ("1024x768", 1024, 768), ("1280x960", 1280, 960), ("1600x1200", 1600, 1200),
   ("2048x1536", 2048, 1536)]

/-- Lines 132-156: the thumbnail list built from the thumbnail base
URL (empty when the URL is absent or falsy). -/
def mkThumbnails : Option String → List Thumbnail
  | none => []
  | some u =>
    if u = "" then [] else
      thumbSizes.map fun s =>
        { url := update_url_query u [("size", s.1), ("size_mode", "2")]
          width := s.2.1
          height := s.2.2
          preference := if s.2.1 = 1280 then 1 else -1 }

/-- The metadata record obtained from the metadata endpoint response:
json_result.get("metadata", {}) when the (non-fatal) request returned
a truthy JSON document, the empty record otherwise. -/
def metaOf (env : Env) : FileMetadata :=
  match env.metaResponse with
  | some m => m
  | none => emptyMeta

/-- The additional_metadata value in force at assembly time: the
endpoint record when an internal file id was recovered (lines
158-183), the empty record otherwise. -/
def amFor (env : Env) (c : Committed) : FileMetadata :=
  if optTruthy c.videoInternalId then metaOf env else emptyMeta

/-- Lines 186-198: the "original" format appended when the
anonymous-download marker was present. -/
def origFormat (env : Env) (am : FileMetadata) : Format :=
  { url := update_url_query env.url [("dl", "1")]
    format_id := some "original"
    format_note := some "Original"
    quality := some 1
    width := am.resolution_width
    height := am.resolution_height
    fps := am.frame_rate
    vcodec := am.codec }

/-- Lines 185-211: the returned dictionary, assembled from the
committed payload values and the additional metadata. -/
def assemble (env : Env) (oc : Option Committed) (am : FileMetadata) : InfoResult :=
  let baseFormats := match oc with | some c => c.formats | none => []
  let hasAnon := match oc with | some c => c.hasAnonymousDownload | none => false
  { id := env.videoId
    title := deriveTitle env.url
    formats := if hasAnon then baseFormats ++ [origFormat env am] else baseFormats
    subtitles := match oc with | some c => c.subtitles | none => []
    thumbnails := mkThumbnails (oc.bind (fun c => c.thumbnailUrl))
    storyboard_url := oc.bind (fun c => c.storyboardUrl)
    duration := am.duration
    upload_date := am.capture_date.bind env.strdate }

/-- Lines 85-211: everything after the password gate, run on the page
body in force at that point. The trace records the metadata request
and the t-cookie read of the metadata path. -/
def extractFromPage (env : Env) (page : String) : Except ExtractErr InfoResult × Trace :=
  match scanTokens env ((env.findallTokens page).reverse) with
  | .error e => (.error e, ⟨0, 0, 0, [], []⟩)
  | .ok oc =>
    if optTruthy (oc.bind (fun c => c.videoInternalId)) then
      match env.cookies "https://www.dropbox.com" "t" with
      | none => (.error .attributeError, ⟨0, 0, 0, [("https://www.dropbox.com", "t")], []⟩)
      | some _ =>
        (.ok (assemble env oc (metaOf env)), ⟨0, 0, 1, [("https://www.dropbox.com", "t")], []⟩)
    else
      (.ok (assemble env oc emptyMeta), ⟨0, 0, 0, [], []⟩)

/-- Python truthiness of the caller-supplied password (an empty string
does not take the password branch). -/
def passwordTruthy : Option String → Bool
  | none => false
  | some p => p ≠ ""

/-- Lines 46-211: the whole of DropboxIE._real_extract. The first
page download always happens; on a gated page the password branch
issues the auth POST (reading the t cookie while building the payload,
which raises AttributeError when the cookie is missing) and re-fetches
on success, the cookie branch re-fetches when sm_auth is present, and
otherwise the user-facing password error is raised. -/
def real_extract (env : Env) : Except ExtractErr InfoResult × Trace :=
  if isGated env env.page1 then
    if passwordTruthy env.videopassword then
      match env.findContentId env.page1 with
      | none => (.error (.regexNotFound "content_id"), ⟨1, 0, 0, [], []⟩)
      | some _cid =>
        match env.cookies "https://www.dropbox.com" "t" with
        | none => (.error .attributeError, ⟨1, 0, 0, [("https://www.dropbox.com", "t")], []⟩)
        | some _tval =>
          if env.authStatus = some "authed" then
            let rest := extractFromPage env env.page2
            (rest.1, Trace.merge ⟨2, 1, 0, [("https://www.dropbox.com", "t")], []⟩ rest.2)
          else
            (.error (.extractorError "Authentication failed!" true),
             ⟨1, 1, 0, [("https://www.dropbox.com", "t")], []⟩)
    else
      match env.cookies "https://dropbox.com" "sm_auth" with
      | some _ =>
        let rest := extractFromPage env env.page2
        (rest.1, Trace.merge ⟨2, 0, 0, [("https://dropbox.com", "sm_auth")], []⟩ rest.2)
      | none =>
        (.error (.extractorError "Password protected video, use --video-password <password>" true),
         ⟨1, 0, 0, [("https://dropbox.com", "sm_auth")], []⟩)
  else
    let rest := extractFromPage env env.page1
    (rest.1, Trace.merge ⟨1, 0, 0, [], []⟩ rest.2)

/-- The page body in force after the gate: the re-fetched page when
the first page was gated, the first page otherwise. -/
def effectivePage (env : Env) : String :=
  if isGated env env.page1 then env.page2 else env.page1

/-- The gate lets the extraction through: the page is not gated, or it
is gated and either the password branch authenticates (password
supplied, content_id present, t cookie present, auth status
"authed") or the sm_auth session cookie is present with no password
supplied. -/
def gatePasses (env : Env) : Prop :=
  isGated env env.page1 = false ∨
  (isGated env env.page1 = true ∧
    ((passwordTruthy env.videopassword = true ∧
        (∃ cid, env.findContentId env.page1 = some cid) ∧
        (∃ tv, env.cookies "https://www.dropbox.com" "t" = some tv) ∧
        env.authStatus = some "authed")
     ∨ (passwordTruthy env.videopassword = false ∧
        ∃ sv, env.cookies "https://dropbox.com" "sm_auth" = some sv)))

/-- A neutral environment for concrete instantiations: a non-gated
page with no tokens, no cookies, no password. Witness environments
override the relevant fields. -/
def baseEnv : Env :=
  { url := "https://www.dropbox.com/s/vid123/My%20Video.mp4?dl=0"
    videoId := "vid123"
    videopassword := none
    page1 := ""
    page2 := ""
    ogTitle := fun _ => none
    findallTokens := fun _ => []
    findContentId := fun _ => none
    cookies := fun _ _ => none
    authStatus := none
    findTranscodeUrl := fun _ => none
    findThumbnailUrl := fun _ => none
    findStoryboardUrl := fun _ => none
    findVideoInternalId := fun _ => none
    hls := fun _ => ([], [])
    metaResponse := none
    strdate := fun _ => none }

/-! ## Helper lemmas -/

theorem scanTokens_append_skip (env : Env) (pre rest : List String)
    (h : ∀ u ∈ pre, ∃ su, decodeToken u = .ok su ∧ env.findTranscodeUrl su = none) :
    scanTokens env (pre ++ rest) = scanTokens env rest := by
  induction pre with
  | nil => rfl
  | cons a as ih =>
    obtain ⟨sa, hdec, hfind⟩ := h a (List.mem_cons_self a as)
    simp only [List.cons_append, scanTokens, hdec, hfind]
    exact ih (fun u hu => h u (List.mem_cons_of_mem a hu))

theorem scanTokens_isOk (env : Env) :
    ∀ toks : List String, (∀ u ∈ toks, (pyB64Decode u).isOk) →
      ∃ oc, scanTokens env toks = .ok oc
  | [], _ => ⟨none, rfl⟩
  | a :: as, h => by
    have ha := h a (List.mem_cons_self a as)
    cases hb : pyB64Decode a with
    | error e => rw [hb] at ha; simp [Except.isOk, Except.toBool] at ha
    | ok bs =>
      obtain ⟨oc, hoc⟩ := scanTokens_isOk env as (fun u hu => h u (List.mem_cons_of_mem a hu))
      cases hfind : env.findTranscodeUrl ⟨utf8DecodeIgnore bs⟩ with
      | none => exact ⟨oc, by simp only [scanTokens, decodeToken, hb, hfind]; exact hoc⟩
      | some turl =>
        exact ⟨some (mkCommitted env ⟨utf8DecodeIgnore bs⟩ turl),
          by simp only [scanTokens, decodeToken, hb, hfind]⟩

theorem gate_passthrough (env : Env) (h : gatePasses env) :
    ∃ tr : Trace, tr.metaRequests = 0 ∧ tr.cookieWrites = [] ∧
      real_extract env = ((extractFromPage env (effectivePage env)).1,
        Trace.merge tr (extractFromPage env (effectivePage env)).2) := by
  rcases h with hng | ⟨hg, ⟨hp, ⟨cid, hcid⟩, ⟨tv, htv⟩, hauth⟩ | ⟨hp, sv, hsv⟩⟩
  · exact ⟨⟨1, 0, 0, [], []⟩, rfl, rfl, by simp [real_extract, effectivePage, hng]⟩
  · exact ⟨⟨2, 1, 0, [("https://www.dropbox.com", "t")], []⟩, rfl, rfl, by
      simp [real_extract, effectivePage, hg, hp, hcid, htv, hauth]⟩
  · exact ⟨⟨2, 0, 0, [("https://dropbox.com", "sm_auth")], []⟩, rfl, rfl, by
      simp [real_extract, effectivePage, hg, hp, hsv]⟩

theorem extractFromPage_pageFetches (env : Env) (page : String) :
    (extractFromPage env page).2.pageFetches = 0 := by
  unfold extractFromPage
  split
  · rfl
  · split
    · split <;> rfl
    · rfl

theorem extractFromPage_authPosts (env : Env) (page : String) :
    (extractFromPage env page).2.authPosts = 0 := by
  unfold extractFromPage
  split
  · rfl
  · split
    · split <;> rfl
    · rfl

theorem extractFromPage_writes (env : Env) (page : String) :
    (extractFromPage env page).2.cookieWrites = [] := by
  unfold extractFromPage
  split
  · rfl
  · split
    · split <;> rfl
    · rfl

theorem extractFromPage_reads (env : Env) (page : String) :
    ∀ p ∈ (extractFromPage env page).2.cookieReads, p = ("https://www.dropbox.com", "t") := by
  unfold extractFromPage
  split
  · simp
  · split
    · split <;> simp
    · simp

theorem extractFromPage_ok (env : Env) (page : String) (c : Committed) (r : InfoResult)
    (hscan : scanTokens env ((env.findallTokens page).reverse) = .ok (some c))
    (hr : (extractFromPage env page).1 = .ok r) :
    r = assemble env (some c) (amFor env c) := by
  unfold extractFromPage at hr
  rw [hscan] at hr
  simp only [Option.bind_eq_bind, Option.some_bind] at hr
  by_cases hid : optTruthy c.videoInternalId = true
  · rw [if_pos hid] at hr
    cases htv : env.cookies "https://www.dropbox.com" "t" with
    | none => rw [htv] at hr; cases hr
    | some tv =>
      rw [htv] at hr
      simp only [Except.ok.injEq] at hr
      rw [← hr, amFor, if_pos hid]
  · rw [if_neg hid] at hr
    simp only [Except.ok.injEq] at hr
    rw [← hr, amFor, if_neg hid]

theorem extractFromPage_ok_of (env : Env) (page : String) (c : Committed)
    (hscan : scanTokens env ((env.findallTokens page).reverse) = .ok (some c))
    (hcook : optTruthy c.videoInternalId = true →
      ∃ tv, env.cookies "https://www.dropbox.com" "t" = some tv) :
    (extractFromPage env page).1 = .ok (assemble env (some c) (amFor env c)) := by
  unfold extractFromPage
  rw [hscan]
  simp only [Option.bind_eq_bind, Option.some_bind]
  by_cases hid : optTruthy c.videoInternalId = true
  · obtain ⟨tv, htv⟩ := hcook hid
    rw [if_pos hid, htv]
    simp [amFor, if_pos hid]
  · rw [if_neg hid]
    simp [amFor, if_neg hid]

theorem extractFromPage_none (env : Env) (page : String)
    (hscan : scanTokens env ((env.findallTokens page).reverse) = .ok none) :
    extractFromPage env page = (.ok (assemble env none emptyMeta), ⟨0, 0, 0, [], []⟩) := by
  unfold extractFromPage
  rw [hscan]
  rfl

/-! ## Sanity checks of the embedding on concrete inputs -/

example : pyB64Decode "aGk=" = .ok [104, 105] := by decide
example : pyB64Decode "abc" = .error "Incorrect padding" := by decide
example : pyB64Decode "aP9p" = .ok [104, 255, 105] := by decide
example : utf8DecodeIgnore [104, 255, 105] = ['h', 'i'] := by decide
example : strContains "say anonymous:\tanonymous here" "anonymous:\tanonymous" = true := by decide
example : deriveTitle "https://www.dropbox.com/s/abc/My%20Video.mp4?dl=0" = "My Video" := by decide
example : update_url_query "https://h/p?dl=0" [("dl", "1")] = "https://h/p?dl=1" := by decide
example : update_url_query "https://h/t.jpeg" [("size", "480x320"), ("size_mode", "2")]
    = "https://h/t.jpeg?size=480x320&size_mode=2" := by decide
example : (real_extract baseEnv).1 = .ok ⟨"vid123", "My Video", [], [], [], none, none, none⟩ := by decide
example : (real_extract baseEnv).2 = ⟨1, 0, 0, [], []⟩ := by decide

/-! ## Claim C1: reverse-order token scan with fallback -/

/-- The environment instantiating C1's theorem: three registration
tokens in document order, of which the middle one decodes to a text
yielding a transcode URL, the last one decodes but yields none, and
the first one is never examined (it would raise if decoded). -/
def envC1 : Env :=
  { baseEnv with
    page1 := "p"
    findallTokens := fun _ => ["abc", "dGVzdA==", "aGk="]
    findTranscodeUrl := fun d => if d = "test" then some "https://x/v.m3u8" else none
    hls := fun u => ([{ url := u, format_id := some "hls-1" }], [("en", "track")]) }

/-- C1: the scan collects the base64 tokens of the page in document
order and iterates them last-to-first, committing to the latest token
(in document order) whose decoded text yields a manifest URL; tokens
later in document order that decode but yield no manifest are rejected
and the scan falls back to the earlier usable one, while tokens
earlier than the committed one are skipped entirely (the conclusion
does not depend on l₁). -/
theorem scan_commits_to_latest_usable (env : Env) (l₁ l₂ : List String)
    (t s turl : String)
    (ht : decodeToken t = .ok s)
    (hturl : env.findTranscodeUrl s = some turl)
    (hl₂ : ∀ u ∈ l₂, ∃ su, decodeToken u = .ok su ∧ env.findTranscodeUrl su = none) :
    scanTokens env ((l₁ ++ t :: l₂).reverse) = .ok (some (mkCommitted env s turl)) := by
  rw [List.reverse_append, List.reverse_cons, List.append_assoc]
  rw [scanTokens_append_skip env l₂.reverse _
    (fun u hu => hl₂ u (List.mem_reverse.mp hu))]
  simp only [List.singleton_append, scanTokens, ht, hturl]

/-- Witness for C1, at the concrete environment envC1. -/
theorem scan_commits_to_latest_usable_witness :
    scanTokens envC1 ((["abc"] ++ "dGVzdA==" :: ["aGk="]).reverse)
      = .ok (some (mkCommitted envC1 "test" "https://x/v.m3u8")) :=
  scan_commits_to_latest_usable envC1 ["abc"] ["aGk="] "dGVzdA==" "test" "https://x/v.m3u8"
    (by decide) (by decide)
    (by intro u hu
        rw [List.mem_singleton] at hu
        subst hu
        exact ⟨"hi", by decide, by decide⟩)

/-! ## Claim C2: gated page, no password, no session cookie -/

/-- The environment instantiating C2's theorem: a gated page (the
prompt phrase occurs in the body), no password, empty cookie jar. -/
def envC2 : Env :=
  { baseEnv with page1 := "Enter the password for this link" }

/-- C2: on a gated page with no caller-supplied password and no
sm_auth session cookie, extraction raises the user-facing
password-required ExtractorError immediately, with no auth POST and no
page re-fetch (exactly the one initial download). -/
theorem gated_without_password_fails_without_auth_post (env : Env)
    (hg : isGated env env.page1 = true)
    (hp : passwordTruthy env.videopassword = false)
    (hc : env.cookies "https://dropbox.com" "sm_auth" = none) :
    (real_extract env).1
      = .error (.extractorError "Password protected video, use --video-password <password>" true)
    ∧ (real_extract env).2.authPosts = 0
    ∧ (real_extract env).2.pageFetches = 1 := by
  simp [real_extract, hg, hp, hc]

/-- Witness for C2, at the concrete environment envC2. -/
theorem gated_without_password_fails_without_auth_post_witness :
    (real_extract envC2).1
      = .error (.extractorError "Password protected video, use --video-password <password>" true)
    ∧ (real_extract envC2).2.authPosts = 0
    ∧ (real_extract envC2).2.pageFetches = 1 :=
  gated_without_password_fails_without_auth_post envC2 (by decide) (by decide) (by decide)

/-! ## Claim C3: gated page with a password -/

/-- The environment instantiating C3's theorem: a gated page, a
password supplied, content_id findable, t cookie present, and an auth
endpoint that answers "authed". -/
def envC3 : Env :=
  { baseEnv with
    page1 := "Enter the password for this link"
    page2 := "open"
    videopassword := some "hunter2"
    findContentId := fun _ => some "cid-1"
    cookies := fun u n =>
      if u = "https://www.dropbox.com" ∧ n = "t" then some "csrf" else none
    authStatus := some "authed" }

/-- C3: on a gated page with a password supplied (and, as the code
requires, a content_id in the page and a t cookie in the jar), exactly
one auth POST is issued; when the JSON status field is "authed"
exactly one re-fetch follows (two page downloads in total) and
extraction proceeds as the post-gate pipeline on the re-fetched page;
for any other status an authentication ExtractorError is raised and no
re-fetch happens. -/
theorem gated_with_password_single_auth_post (env : Env) (cid tv : String)
    (hg : isGated env env.page1 = true)
    (hp : passwordTruthy env.videopassword = true)
    (hcid : env.findContentId env.page1 = some cid)
    (htv : env.cookies "https://www.dropbox.com" "t" = some tv) :
    (real_extract env).2.authPosts = 1 ∧
    (env.authStatus = some "authed" →
      (real_extract env).2.pageFetches = 2 ∧
      (real_extract env).1 = (extractFromPage env env.page2).1) ∧
    (env.authStatus ≠ some "authed" →
      (real_extract env).1 = .error (.extractorError "Authentication failed!" true) ∧
      (real_extract env).2.pageFetches = 1) := by
  by_cases hauth : env.authStatus = some "authed"
  · simp [real_extract, hg, hp, hcid, htv, hauth, Trace.merge,
      extractFromPage_authPosts, extractFromPage_pageFetches]
  · simp [real_extract, hg, hp, hcid, htv, hauth, Trace.merge]

/-- Witness for C3, at the concrete environment envC3. -/
theorem gated_with_password_single_auth_post_witness :
    (real_extract envC3).2.authPosts = 1 ∧
    (envC3.authStatus = some "authed" →
      (real_extract envC3).2.pageFetches = 2 ∧
      (real_extract envC3).1 = (extractFromPage envC3 envC3.page2).1) ∧
    (envC3.authStatus ≠ some "authed" →
      (real_extract envC3).1 = .error (.extractorError "Authentication failed!" true) ∧
      (real_extract envC3).2.pageFetches = 1) :=
  gated_with_password_single_auth_post envC3 "cid-1" "csrf"
    (by decide) (by decide) (by decide) (by decide)

/-! ## Claim C4: thumbnail derivation -/

/-- The environment instantiating C4's theorem: one committing token
whose payload carries a thumbnail base URL and no internal id. -/
def envC4 : Env :=
  { baseEnv with
    page1 := "p"
    findallTokens := fun _ => ["dGVzdA=="]
    findTranscodeUrl := fun d => if d = "test" then some "https://x/v.m3u8" else none
    findThumbnailUrl := fun _ => some "https://h/t.jpeg"
    hls := fun u => ([{ url := u }], []) }

/-- The committed payload of envC4. -/
def cC4 : Committed := mkCommitted envC4 "test" "https://x/v.m3u8"

/-- The result record envC4's extraction produces. -/
def rC4 : InfoResult := assemble envC4 (some cC4) (amFor envC4 cC4)

/-- C4: when the committed payload carries a non-empty thumbnail base
URL, the result holds exactly seven thumbnail records with strictly
increasing widths 480, 640, 800, 1024, 1280, 1600, 2048, each URL
being the base URL with size=widthxheight and size_mode=2 set or
overwritten, the 1280-wide record alone having preference 1 and all
others preference -1; and with no thumbnail base URL the list is
empty. -/
theorem thumbnail_derivation_table (env : Env) (c : Committed) (u : String) (r : InfoResult)
    (hgate : gatePasses env)
    (hscan : scanTokens env ((env.findallTokens (effectivePage env)).reverse) = .ok (some c))
    (hthumb : c.thumbnailUrl = some u) (hne : u ≠ "")
    (hr : (real_extract env).1 = .ok r) :
    r.thumbnails.length = 7 ∧
    r.thumbnails.map (fun th => th.width) = [480, 640, 800, 1024, 1280, 1600, 2048] ∧
    List.Pairwise (· < ·) (r.thumbnails.map (fun th => th.width)) ∧
    (∀ th ∈ r.thumbnails, ∃ s ∈ thumbSizes,
      th.width = s.2.1 ∧ th.height = s.2.2 ∧
      th.url = update_url_query u [("size", s.1), ("size_mode", "2")] ∧
      (th.width = 1280 → th.preference = 1) ∧
      (th.width ≠ 1280 → th.preference = -1)) ∧
    (r.thumbnails.filter (fun th => th.preference = 1)).map (fun th => th.width) = [1280] ∧
    mkThumbnails none = [] := by
  obtain ⟨tr, -, -, hre⟩ := gate_passthrough env hgate
  have h1 : (real_extract env).1 = (extractFromPage env (effectivePage env)).1 := by rw [hre]
  rw [h1] at hr
  have hr2 := extractFromPage_ok env _ c r hscan hr
  subst hr2
  have hth : (assemble env (some c) (amFor env c)).thumbnails = mkThumbnails (some u) := by
    simp [assemble, hthumb]
  have hmk : mkThumbnails (some u) =
      [⟨update_url_query u [("size", "480x320"), ("size_mode", "2")], 480, 320, -1⟩,
       ⟨update_url_query u [("size", "640x480"), ("size_mode", "2")], 640, 480, -1⟩,
       ⟨update_url_query u [("size", "800x600"), ("size_mode", "2")], 800, 600, -1⟩,
       ⟨update_url_query u [("size", "1024x768"), ("size_mode", "2")], 1024, 768, -1⟩,
       ⟨update_url_query u [("size", "1280x960"), ("size_mode", "2")], 1280, 960, 1⟩,
       ⟨update_url_query u [("size", "1600x1200"), ("size_mode", "2")], 1600, 1200, -1⟩,
       ⟨update_url_query u [("size", "2048x1536"), ("size_mode", "2")], 2048, 1536, -1⟩] := by
    simp [mkThumbnails, thumbSizes, hne]
  rw [hth, hmk]
  have hw : ([⟨update_url_query u [("size", "480x320"), ("size_mode", "2")], 480, 320, -1⟩,
       ⟨update_url_query u [("size", "640x480"), ("size_mode", "2")], 640, 480, -1⟩,
       ⟨update_url_query u [("size", "800x600"), ("size_mode", "2")], 800, 600, -1⟩,
       ⟨update_url_query u [("size", "1024x768"), ("size_mode", "2")], 1024, 768, -1⟩,
       ⟨update_url_query u [("size", "1280x960"), ("size_mode", "2")], 1280, 960, 1⟩,
       ⟨update_url_query u [("size", "1600x1200"), ("size_mode", "2")], 1600, 1200, -1⟩,
       ⟨update_url_query u [("size", "2048x1536"), ("size_mode", "2")], 2048, 1536, -1⟩]
        : List Thumbnail).map (fun th => th.width)
      = [480, 640, 800, 1024, 1280, 1600, 2048] := rfl
  refine ⟨rfl, hw, by rw [hw]; decide, ?_, rfl, rfl⟩
  intro th hth2
  simp only [List.mem_cons, List.not_mem_nil, or_false] at hth2
  rcases hth2 with rfl | rfl | rfl | rfl | rfl | rfl | rfl
  · exact ⟨("480x320", 480, 320), by decide, rfl, rfl, rfl,
      fun h => absurd h (by norm_num), fun _ => rfl⟩
  · exact ⟨("640x480", 640, 480), by decide, rfl, rfl, rfl,
      fun h => absurd h (by norm_num), fun _ => rfl⟩
  · exact ⟨("800x600", 800, 600), by decide, rfl, rfl, rfl,
      fun h => absurd h (by norm_num), fun _ => rfl⟩
  · exact ⟨("1024x768", 1024, 768), by decide, rfl, rfl, rfl,
      fun h => absurd h (by norm_num), fun _ => rfl⟩
  · exact ⟨("1280x960", 1280, 960), by decide, rfl, rfl, rfl,
      fun _ => rfl, fun h => absurd rfl h⟩
  · exact ⟨("1600x1200", 1600, 1200), by decide, rfl, rfl, rfl,
      fun h => absurd h (by norm_num), fun _ => rfl⟩
  · exact ⟨("2048x1536", 2048, 1536), by decide, rfl, rfl, rfl,
      fun h => absurd h (by norm_num), fun _ => rfl⟩

/-- Witness for C4, at the concrete environment envC4. -/
theorem thumbnail_derivation_table_witness :
    rC4.thumbnails.length = 7 ∧
    rC4.thumbnails.map (fun th => th.width) = [480, 640, 800, 1024, 1280, 1600, 2048] ∧
    List.Pairwise (· < ·) (rC4.thumbnails.map (fun th => th.width)) ∧
    (∀ th ∈ rC4.thumbnails, ∃ s ∈ thumbSizes,
      th.width = s.2.1 ∧ th.height = s.2.2 ∧
      th.url = update_url_query "https://h/t.jpeg" [("size", s.1), ("size_mode", "2")] ∧
      (th.width = 1280 → th.preference = 1) ∧
      (th.width ≠ 1280 → th.preference = -1)) ∧
    (rC4.thumbnails.filter (fun th => th.preference = 1)).map (fun th => th.width) = [1280] ∧
    mkThumbnails none = [] :=
  thumbnail_derivation_table envC4 cC4 "https://h/t.jpeg" rC4
    (Or.inl (by decide)) (by decide) (by decide) (by decide) (by decide)

/-! ## Claim C5: the "original" format entry -/

/-- A sample metadata record for C5's witness. -/
def metaC5 : FileMetadata :=
  { resolution_width := some 1920
    resolution_height := some 1080
    frame_rate := some 30
    codec := some "h264"
    duration := some 60
    capture_date := some "20240101" }

/-- The environment instantiating C5's theorem: the single token
decodes to exactly the anonymous-download marker, the payload carries
an internal id, the t cookie is present and the metadata endpoint
answers with metaC5. -/
def envC5 : Env :=
  { baseEnv with
    page1 := "p"
    findallTokens := fun _ => ["YW5vbnltb3VzOglhbm9ueW1vdXM="]
    findTranscodeUrl := fun d =>
      if d = "anonymous:\tanonymous" then some "https://x/v.m3u8" else none
    findVideoInternalId := fun _ => some "abc123"
    cookies := fun w n =>
      if w = "https://www.dropbox.com" ∧ n = "t" then some "csrf" else none
    hls := fun u => ([{ url := u, format_id := some "hls-0" }], [])
    metaResponse := some metaC5 }

/-- The committed payload of envC5. -/
def cC5 : Committed := mkCommitted envC5 "anonymous:\tanonymous" "https://x/v.m3u8"

/-- The result record envC5's extraction produces. -/
def rC5 : InfoResult := assemble envC5 (some cC5) (amFor envC5 cC5)

/-- C5: when the anonymous-download marker is absent from the
committed payload the formats list is exactly the manifest-derived
one (so it holds no "original"-tagged entry whenever the external HLS
resolver produced none); when the marker is present exactly one
"original" entry is appended as the last element, with URL the share
URL with dl=1 set or overwritten, format_note "Original", quality 1,
and width, height, fps and codec equal to the corresponding enrichment
metadata fields (which are unset when the metadata record is empty). -/
theorem original_format_append (env : Env) (c : Committed) (r : InfoResult)
    (hgate : gatePasses env)
    (hscan : scanTokens env ((env.findallTokens (effectivePage env)).reverse) = .ok (some c))
    (hr : (real_extract env).1 = .ok r) :
    (c.hasAnonymousDownload = false → r.formats = c.formats ∧
      ((∀ f ∈ c.formats, f.format_id ≠ some "original") →
        ∀ f ∈ r.formats, f.format_id ≠ some "original")) ∧
    (c.hasAnonymousDownload = true →
      r.formats = c.formats ++ [origFormat env (amFor env c)] ∧
      r.formats.getLast? = some (origFormat env (amFor env c)) ∧
      (origFormat env (amFor env c)).url = update_url_query env.url [("dl", "1")] ∧
      (origFormat env (amFor env c)).format_id = some "original" ∧
      (origFormat env (amFor env c)).format_note = some "Original" ∧
      (origFormat env (amFor env c)).quality = some 1 ∧
      (origFormat env (amFor env c)).width = (amFor env c).resolution_width ∧
      (origFormat env (amFor env c)).height = (amFor env c).resolution_height ∧
      (origFormat env (amFor env c)).fps = (amFor env c).frame_rate ∧
      (origFormat env (amFor env c)).vcodec = (amFor env c).codec ∧
      ((∀ f ∈ c.formats, f.format_id ≠ some "original") →
        r.formats.filter (fun f => f.format_id = some "original")
          = [origFormat env (amFor env c)])) := by
  obtain ⟨tr, -, -, hre⟩ := gate_passthrough env hgate
  have h1 : (real_extract env).1 = (extractFromPage env (effectivePage env)).1 := by rw [hre]
  rw [h1] at hr
  have hr2 := extractFromPage_ok env _ c r hscan hr
  subst hr2
  constructor
  · intro hanon
    have hf : (assemble env (some c) (amFor env c)).formats = c.formats := by
      simp [assemble, hanon]
    exact ⟨hf, fun hcl => by rw [hf]; exact hcl⟩
  · intro hanon
    have hf : (assemble env (some c) (amFor env c)).formats
        = c.formats ++ [origFormat env (amFor env c)] := by
      simp [assemble, hanon]
    refine ⟨hf, ?_, rfl, rfl, rfl, rfl, rfl, rfl, rfl, rfl, ?_⟩
    · rw [hf, List.getLast?_concat]
    · intro hcl
      rw [hf, List.filter_append]
      have hnil : c.formats.filter (fun f => f.format_id = some "original") = [] := by
        rw [List.filter_eq_nil_iff]
        intro f hfm
        simpa using hcl f hfm
      rw [hnil]
      simp [origFormat]

/-- Witness for C5, at the concrete environment envC5 (the marker is
present there, so the witness exercises the appending branch; the
absence branch of the theorem is discharged vacuously). -/
theorem original_format_append_witness :
    (cC5.hasAnonymousDownload = false → rC5.formats = cC5.formats ∧
      ((∀ f ∈ cC5.formats, f.format_id ≠ some "original") →
        ∀ f ∈ rC5.formats, f.format_id ≠ some "original")) ∧
    (cC5.hasAnonymousDownload = true →
      rC5.formats = cC5.formats ++ [origFormat envC5 (amFor envC5 cC5)] ∧
      rC5.formats.getLast? = some (origFormat envC5 (amFor envC5 cC5)) ∧
      (origFormat envC5 (amFor envC5 cC5)).url
        = update_url_query envC5.url [("dl", "1")] ∧
      (origFormat envC5 (amFor envC5 cC5)).format_id = some "original" ∧
      (origFormat envC5 (amFor envC5 cC5)).format_note = some "Original" ∧
      (origFormat envC5 (amFor envC5 cC5)).quality = some 1 ∧
      (origFormat envC5 (amFor envC5 cC5)).width = (amFor envC5 cC5).resolution_width ∧
      (origFormat envC5 (amFor envC5 cC5)).height = (amFor envC5 cC5).resolution_height ∧
      (origFormat envC5 (amFor envC5 cC5)).fps = (amFor envC5 cC5).frame_rate ∧
      (origFormat envC5 (amFor envC5 cC5)).vcodec = (amFor envC5 cC5).codec ∧
      ((∀ f ∈ cC5.formats, f.format_id ≠ some "original") →
        rC5.formats.filter (fun f => f.format_id = some "original")
          = [origFormat envC5 (amFor envC5 cC5)])) :=
  original_format_append envC5 cC5 rC5
    (Or.inl (by decide)) (by decide) (by decide)

/-! ## Claim C6: metadata-endpoint failure is non-fatal -/

/-- The environment instantiating C6's theorem: like envC5 but the
metadata request fails. -/
def envC6 : Env := { envC5 with metaResponse := none }

/-- The committed payload of envC6. -/
def cC6 : Committed := mkCommitted envC6 "anonymous:\tanonymous" "https://x/v.m3u8"

/-- C6: when an internal file id was recovered (and the t cookie is
present, as the code requires before it can issue the request), a
failing metadata request never raises: extraction still returns the
assembled record, whose duration and upload_date are unset and whose
optional "original" format carries no enrichment values. -/
theorem metadata_failure_nonfatal (env : Env) (c : Committed) (tv : String)
    (hgate : gatePasses env)
    (hscan : scanTokens env ((env.findallTokens (effectivePage env)).reverse) = .ok (some c))
    (hid : optTruthy c.videoInternalId = true)
    (htv : env.cookies "https://www.dropbox.com" "t" = some tv)
    (hfail : env.metaResponse = none) :
    (real_extract env).1 = .ok (assemble env (some c) emptyMeta) ∧
    (assemble env (some c) emptyMeta).duration = none ∧
    (assemble env (some c) emptyMeta).upload_date = none ∧
    (assemble env (some c) emptyMeta).formats
      = (if c.hasAnonymousDownload then c.formats ++ [origFormat env emptyMeta]
         else c.formats) ∧
    (origFormat env emptyMeta).width = none ∧
    (origFormat env emptyMeta).height = none ∧
    (origFormat env emptyMeta).fps = none ∧
    (origFormat env emptyMeta).vcodec = none := by
  obtain ⟨tr, -, -, hre⟩ := gate_passthrough env hgate
  have h1 : (real_extract env).1 = (extractFromPage env (effectivePage env)).1 := by rw [hre]
  have hok := extractFromPage_ok_of env (effectivePage env) c hscan (fun _ => ⟨tv, htv⟩)
  have ham : amFor env c = emptyMeta := by simp [amFor, hid, metaOf, hfail]
  rw [ham] at hok
  exact ⟨by rw [h1, hok], rfl, rfl, rfl, rfl, rfl, rfl, rfl⟩

/-- Witness for C6, at the concrete environment envC6. -/
theorem metadata_failure_nonfatal_witness :
    (real_extract envC6).1 = .ok (assemble envC6 (some cC6) emptyMeta) ∧
    (assemble envC6 (some cC6) emptyMeta).duration = none ∧
    (assemble envC6 (some cC6) emptyMeta).upload_date = none ∧
    (assemble envC6 (some cC6) emptyMeta).formats
      = (if cC6.hasAnonymousDownload then cC6.formats ++ [origFormat envC6 emptyMeta]
         else cC6.formats) ∧
    (origFormat envC6 emptyMeta).width = none ∧
    (origFormat envC6 emptyMeta).height = none ∧
    (origFormat envC6 emptyMeta).fps = none ∧
    (origFormat envC6 emptyMeta).vcodec = none :=
  metadata_failure_nonfatal envC6 cC6 "csrf"
    (Or.inl (by decide)) (by decide) (by decide) (by decide) (by decide)

/-! ## Claim C7: permissive decoding of matched tokens -/

/-- The environment for C7's counterexample: a non-gated page whose
single registration token is "abc", which the registration regex
character class matches but base64.b64decode rejects. -/
def envC7 : Env := { baseEnv with findallTokens := fun _ => ["abc"] }

/-- C7 counterexample: decoding of a matched registration token can
raise. The token "abc" (three data characters, an incomplete base64
quad) makes base64.b64decode raise binascii.Error, and extraction on a
page carrying it aborts with that error instead of continuing. -/
theorem token_decode_raises_counterexample :
    decodeToken "abc" = .error (.binasciiError "Incorrect padding") ∧
    (real_extract envC7).1 = .error (.binasciiError "Incorrect padding") := by decide

/-- C7 (amended): the byte-to-text stage of decoding is permissive and
never raises — every token whose base64 payload decodes is turned into
the lossy UTF-8 decode of its bytes, with invalid byte sequences
dropped, and the scan over a token list all of whose members
base64-decode never raises. The base64 stage itself, however, raises
binascii.Error on a token with incomplete quad structure (see the
counterexample). -/
theorem decode_lossy_never_raises_when_b64_ok (env : Env) (toks : List String)
    (h : ∀ u ∈ toks, (pyB64Decode u).isOk) :
    (∀ u bs, pyB64Decode u = .ok bs → decodeToken u = .ok ⟨utf8DecodeIgnore bs⟩) ∧
    ∃ oc, scanTokens env toks = .ok oc :=
  ⟨fun _ bs hb => by simp [decodeToken, hb], scanTokens_isOk env toks h⟩

/-- Witness for the amended C7: the token "aP9p" decodes to the bytes
[104, 255, 105]; the invalid byte 255 is dropped and the scan
continues with the remaining text "hi". -/
theorem decode_lossy_never_raises_when_b64_ok_witness :
    (∀ u bs, pyB64Decode u = .ok bs → decodeToken u = .ok ⟨utf8DecodeIgnore bs⟩) ∧
    ∃ oc, scanTokens baseEnv ["aP9p"] = .ok oc :=
  decode_lossy_never_raises_when_b64_ok baseEnv ["aP9p"]
    (by intro u hu
        rw [List.mem_singleton] at hu
        subst hu
        decide)

/-! ## Claim C8: extraction on non-gated pages -/

/-- The environment for C8's counterexample: a non-gated page whose
single registration token is "ab" — no token yields a manifest, yet
extraction raises. -/
def envC8 : Env := { baseEnv with page1 := "q", findallTokens := fun _ => ["ab"] }

/-- C8 counterexample: a non-gated page on which no token yields a
manifest, where extraction nevertheless raises (binascii.Error from
the malformed token "ab") instead of returning a result record — so
the operation does not hard-fail only on unresolved password gates or
failed authentication. -/
theorem nongated_extraction_raises_counterexample :
    isGated envC8 envC8.page1 = false ∧
    (real_extract envC8).1 = .error (.binasciiError "Incorrect padding") := by decide

/-- C8 (amended): on a non-gated page (or a gated page the
authentication lets through) all of whose registration tokens
base64-decode, and where a committed internal file id implies the t
cookie is present, extraction returns a result record carrying the
URL-derived id and title; when no token yields a manifest, formats and
subtitles remain empty, thumbnails are empty, storyboard, duration and
upload date remain unset, no metadata request is made, and no error is
raised. -/
theorem extraction_total_when_tokens_decode (env : Env)
    (hgate : gatePasses env)
    (hdec : ∀ u ∈ env.findallTokens (effectivePage env), (pyB64Decode u).isOk)
    (hcook : ∀ c : Committed,
      scanTokens env ((env.findallTokens (effectivePage env)).reverse) = .ok (some c) →
      optTruthy c.videoInternalId = true →
      ∃ tv, env.cookies "https://www.dropbox.com" "t" = some tv) :
    ∃ r, (real_extract env).1 = .ok r ∧ r.id = env.videoId ∧ r.title = deriveTitle env.url ∧
      (scanTokens env ((env.findallTokens (effectivePage env)).reverse) = .ok none →
        r.formats = [] ∧ r.subtitles = [] ∧ r.thumbnails = [] ∧
        r.storyboard_url = none ∧ r.duration = none ∧ r.upload_date = none ∧
        (real_extract env).2.metaRequests = 0) := by
  obtain ⟨tr, htr, -, hre⟩ := gate_passthrough env hgate
  have h1 : (real_extract env).1 = (extractFromPage env (effectivePage env)).1 := by rw [hre]
  obtain ⟨oc, hoc⟩ := scanTokens_isOk env _ (fun u hu => hdec u (List.mem_reverse.mp hu))
  cases oc with
  | none =>
    have hEF := extractFromPage_none env (effectivePage env) hoc
    refine ⟨assemble env none emptyMeta, by rw [h1, hEF], rfl, rfl, fun _ => ?_⟩
    refine ⟨rfl, rfl, rfl, rfl, rfl, rfl, ?_⟩
    have h2 : (real_extract env).2
        = Trace.merge tr (extractFromPage env (effectivePage env)).2 := by rw [hre]
    rw [h2, hEF]
    simp [Trace.merge, htr]
  | some c =>
    have hok := extractFromPage_ok_of env (effectivePage env) c hoc (hcook c hoc)
    refine ⟨assemble env (some c) (amFor env c), by rw [h1, hok], rfl, rfl, fun hn => ?_⟩
    rw [hoc] at hn
    simp at hn

/-- The environment for the amended C8's witness: one decodable token
that yields no manifest. -/
def envC8w : Env := { baseEnv with findallTokens := fun _ => ["aGk="] }

/-- Witness for the amended C8, at the concrete environment envC8w. -/
theorem extraction_total_when_tokens_decode_witness :
    ∃ r, (real_extract envC8w).1 = .ok r ∧ r.id = envC8w.videoId ∧
      r.title = deriveTitle envC8w.url ∧
      (scanTokens envC8w ((envC8w.findallTokens (effectivePage envC8w)).reverse) = .ok none →
        r.formats = [] ∧ r.subtitles = [] ∧ r.thumbnails = [] ∧
        r.storyboard_url = none ∧ r.duration = none ∧ r.upload_date = none ∧
        (real_extract envC8w).2.metaRequests = 0) :=
  extraction_total_when_tokens_decode envC8w
    (Or.inl (by decide))
    (by intro u hu
        have htoks : envC8w.findallTokens (effectivePage envC8w) = ["aGk="] := by decide
        rw [htoks, List.mem_singleton] at hu
        subst hu
        decide)
    (by intro c hc
        have h2 : scanTokens envC8w
            ((envC8w.findallTokens (effectivePage envC8w)).reverse) = .ok none := by decide
        rw [h2] at hc
        simp at hc)

/-! ## Claim C9: cookie-jar frame -/

/-- The environment for C9's witness: a gated page with no password
and no cookies, so the sm_auth read is observable in the trace. -/
def envC9 : Env := { baseEnv with page1 := "Enter the password for this link" }

/-- C9: every cookie-jar access of an extraction reads either the t
cookie via the jar for https://www.dropbox.com or the sm_auth cookie
via the jar for https://dropbox.com — both under the dropbox.com
cookie domain — and no extraction ever writes a cookie. -/
theorem cookie_reads_only_t_and_sm_auth (env : Env) :
    (∀ p ∈ (real_extract env).2.cookieReads,
      p = ("https://www.dropbox.com", "t") ∨ p = ("https://dropbox.com", "sm_auth")) ∧
    (real_extract env).2.cookieWrites = [] := by
  unfold real_extract
  split
  · split
    · split
      · simp
      · split
        · simp
        · split
          · constructor
            · intro p hp
              simp only [Trace.merge] at hp
              rcases List.mem_append.mp hp with hmem | hmem
              · left
                simpa using hmem
              · exact Or.inl (extractFromPage_reads env _ p hmem)
            · simp [Trace.merge, extractFromPage_writes]
          · simp
    · split
      · constructor
        · intro p hp
          simp only [Trace.merge] at hp
          rcases List.mem_append.mp hp with hmem | hmem
          · right
            simpa using hmem
          · exact Or.inl (extractFromPage_reads env _ p hmem)
        · simp [Trace.merge, extractFromPage_writes]
      · simp
  · constructor
    · intro p hp
      simp only [Trace.merge] at hp
      rcases List.mem_append.mp hp with hmem | hmem
      · simp at hmem
      · exact Or.inl (extractFromPage_reads env _ p hmem)
    · simp [Trace.merge, extractFromPage_writes]

/-- Witness for C9, at the concrete environment envC9 (whose trace
records the sm_auth read). -/
theorem cookie_reads_only_t_and_sm_auth_witness :
    (("https://dropbox.com", "sm_auth") = ("https://www.dropbox.com", "t") ∨
     ("https://dropbox.com", "sm_auth") = ("https://dropbox.com", "sm_auth")) ∧
    (real_extract envC9).2.cookieWrites = [] :=
  ⟨(cookie_reads_only_t_and_sm_auth envC9).1 ("https://dropbox.com", "sm_auth") (by decide),
   (cookie_reads_only_t_and_sm_auth envC9).2⟩

/-! ## Claim C10: the t cookie is an unguarded precondition -/

/-- The environment for the first half of C10's witness: gated page,
password supplied, content_id present, but no t cookie in the jar. -/
def envC10a : Env :=
  { baseEnv with
    page1 := "Enter the password for this link"
    videopassword := some "pw"
    findContentId := fun _ => some "cid" }

/-- The environment for the second half of C10's witness: non-gated
page whose committed payload carries an internal file id, with no t
cookie in the jar. -/
def envC10b : Env :=
  { baseEnv with
    page1 := "p"
    findallTokens := fun _ => ["dGVzdA=="]
    findTranscodeUrl := fun d => if d = "test" then some "https://x/v.m3u8" else none
    findVideoInternalId := fun _ => some "vid-internal" }

/-- The committed payload of envC10b. -/
def cC10 : Committed := mkCommitted envC10b "test" "https://x/v.m3u8"

/-- C10: both the password auth POST and the metadata request read the
t cookie's value without a guard. On the gated-with-password path with
no t cookie in the jar, extraction fails with the unexpected
AttributeError before the auth POST is issued; and when a committed
payload carries an internal file id with no t cookie present,
extraction fails the same way before the metadata request is issued. -/
theorem t_cookie_precondition (envA envB : Env) (cidA : String) (cB : Committed)
    (hgA : isGated envA envA.page1 = true)
    (hpA : passwordTruthy envA.videopassword = true)
    (hcidA : envA.findContentId envA.page1 = some cidA)
    (htA : envA.cookies "https://www.dropbox.com" "t" = none)
    (hgB : gatePasses envB)
    (hscanB : scanTokens envB ((envB.findallTokens (effectivePage envB)).reverse) = .ok (some cB))
    (hidB : optTruthy cB.videoInternalId = true)
    (htB : envB.cookies "https://www.dropbox.com" "t" = none) :
    ((real_extract envA).1 = .error .attributeError ∧ (real_extract envA).2.authPosts = 0) ∧
    ((real_extract envB).1 = .error .attributeError ∧ (real_extract envB).2.metaRequests = 0) := by
  constructor
  · constructor <;> simp [real_extract, hgA, hpA, hcidA, htA]
  · obtain ⟨tr, htr, -, hre⟩ := gate_passthrough envB hgB
    have hEF : extractFromPage envB (effectivePage envB)
        = (.error .attributeError, ⟨0, 0, 0, [("https://www.dropbox.com", "t")], []⟩) := by
      unfold extractFromPage
      rw [hscanB]
      simp only [Option.bind_eq_bind, Option.some_bind]
      rw [if_pos hidB, htB]
    constructor
    · simp [hre, hEF]
    · simp [hre, hEF, Trace.merge, htr]

/-- Witness for C10, at the concrete environments envC10a and
envC10b. -/
theorem t_cookie_precondition_witness :
    (((real_extract envC10a).1 = .error .attributeError ∧
      (real_extract envC10a).2.authPosts = 0) ∧
     ((real_extract envC10b).1 = .error .attributeError ∧
      (real_extract envC10b).2.metaRequests = 0)) :=
  t_cookie_precondition envC10a envC10b "cid" cC10
    (by decide) (by decide) (by decide) (by decide)
    (Or.inl (by decide)) (by decide) (by decide) (by decide)
